import Mathlib

set_option maxHeartbeats 1000000
set_option maxRecDepth 4096

/-! Verification development for the plugin-server lifecycle orchestrator
(`startPluginsServer` and `stopPiscina`): a shallow embedding of the shutdown
sequence `closeJobs`, the process-level fault handlers, the signal wiring,
the worker-pool stop timing, and the capability-driven startup blocks, with
theorems about the behaviour of each. -/

/-- Which owned handles a run of `startPluginsServer` has populated by the time
`closeJobs` runs. Each field mirrors one of the local bindings the shutdown path
consults: `httpServer`, `lastActivityCheck`, `stopEventLoopMetrics`, `pubSub`,
`graphileWorker`, the consumer handles, `piscina` and `closeHub`. A field is
`true` exactly when the corresponding binding is defined (non-undefined), so
that the optional-chaining calls (`httpServer?.close()`, `pubSub?.stop()`, ...)
fire. -/
structure ServerHandles where
  httpServer : Bool
  lastActivityCheck : Bool
  stopEventLoopMetrics : Bool
  pubSub : Bool
  graphileWorker : Bool
  analyticsEventsIngestionConsumer : Bool
  analyticsEventsIngestionOverflowConsumer : Bool
  onEventHandlerConsumer : Bool
  webhooksHandlerConsumer : Bool
  bufferConsumer : Bool
  jobsConsumer : Bool
  sessionRecordingEventsConsumer : Bool
  sessionRecordingBlobConsumer : Bool
  schedulerTasksConsumer : Bool
  piscina : Bool
  closeHub : Bool
deriving DecidableEq

/-- The fully-started configuration: every handle the shutdown path knows about
is populated. -/
def fullHandles : ServerHandles :=
  ⟨true, true, true, true, true, true, true, true, true, true, true, true, true, true, true, true⟩

/-- Observable actions performed by the shutdown path, one constructor per
side-effecting call in `closeJobs` (and in `stopPiscina`, which it calls). -/
inductive CloseEv
  | clearLastActivityCheck
  | httpServerClose
  | cancelAllScheduledJobs
  | stopEventLoopMetrics
  | pubSubStop
  | graphileWorkerStop
  | analyticsConsumerStop
  | overflowConsumerStop
  | onEventConsumerStop
  | webhooksConsumerStop
  | bufferConsumerDisconnect
  | jobsConsumerDisconnect
  | sessionRecordingEventsStop
  | sessionRecordingBlobStop
  | schedulerTasksDisconnect
  | piscinaTeardownBroadcast
  | piscinaFlushBroadcast
  | hubClose
deriving DecidableEq

/-- An optional-chained call: the event occurs exactly when the handle is set. -/
def optEv (b : Bool) (e : CloseEv) : List CloseEv := if b then [e] else []

/-- Outcome of one settled promise, as reported by `Promise.allSettled`. -/
inductive SettledResult
  | fulfilled
  | rejected
deriving DecidableEq

/-- JS `Promise.allSettled`: awaits every promise in the array and collects each
outcome; it never rejects, so the `await` of its result cannot abort the caller.
The input list holds, for each promise, whether it fulfilled. -/
def promiseAllSettled (ps : List Bool) : Except Unit (List SettledResult) :=
  .ok (ps.map fun ok => if ok then SettledResult.fulfilled else SettledResult.rejected)

/-- Awaiting inside an async function: a rejected awaited promise aborts the
remainder of the function (no further events); a fulfilled one continues with
its value. -/
def afterAwait {α : Type} (r : Except Unit α) (k : α → List CloseEv) : List CloseEv :=
  match r with
  | .error _ => []
  | .ok a => k a

/-- Synchronous head of `closeJobs`, in source order:
`lastActivityCheck && clearInterval(lastActivityCheck)`, then
`httpServer?.close()`, then `cancelAllScheduledJobs()`, then
`stopEventLoopMetrics?.()`. -/
def preEvents (h : ServerHandles) : List CloseEv :=
  optEv h.lastActivityCheck CloseEv.clearLastActivityCheck ++
  optEv h.httpServer CloseEv.httpServerClose ++
  [CloseEv.cancelAllScheduledJobs] ++
  optEv h.stopEventLoopMetrics CloseEv.stopEventLoopMetrics

/-- The array of stop/disconnect calls passed to `Promise.allSettled`, in the
source's array order. Building the array already invokes each started handle's
stop routine (JS evaluates every element of the array literal). -/
def stopEvents (h : ServerHandles) : List CloseEv :=
  optEv h.pubSub CloseEv.pubSubStop ++
  optEv h.graphileWorker CloseEv.graphileWorkerStop ++
  optEv h.analyticsEventsIngestionConsumer CloseEv.analyticsConsumerStop ++
  optEv h.analyticsEventsIngestionOverflowConsumer CloseEv.overflowConsumerStop ++
  optEv h.onEventHandlerConsumer CloseEv.onEventConsumerStop ++
  optEv h.webhooksHandlerConsumer CloseEv.webhooksConsumerStop ++
  optEv h.bufferConsumer CloseEv.bufferConsumerDisconnect ++
  optEv h.jobsConsumer CloseEv.jobsConsumerDisconnect ++
  optEv h.sessionRecordingEventsConsumer CloseEv.sessionRecordingEventsStop ++
  optEv h.sessionRecordingBlobConsumer CloseEv.sessionRecordingBlobStop ++
  optEv h.schedulerTasksConsumer CloseEv.schedulerTasksDisconnect

/-- Tail of `closeJobs`: `if (piscina) await stopPiscina(piscina)` — which
broadcasts `teardownPlugins` then `flushKafkaMessages` — then `await closeHub?.()`. -/
def postEvents (h : ServerHandles) : List CloseEv :=
  optEv h.piscina CloseEv.piscinaTeardownBroadcast ++
  optEv h.piscina CloseEv.piscinaFlushBroadcast ++
  optEv h.closeHub CloseEv.hubClose

/-- The event trace of one run of `closeJobs` over handles `h`, where `fail e`
says whether the stop routine recorded as event `e` rejects. The stop calls are
all issued when the array literal is built, their outcomes are gathered by
`Promise.allSettled` (which never rejects), and only then do the worker-pool
stop and the hub close run. -/
def closeJobsTrace (h : ServerHandles) (fail : CloseEv → Bool) : List CloseEv :=
  preEvents h ++ stopEvents h ++
    afterAwait (promiseAllSettled ((stopEvents h).map fun e => !fail e))
      (fun _ => postEvents h)

/-- Mutable lifecycle state the handlers close over: the `shuttingDown` flag and
the owned handles. -/
structure LifecycleState where
  shuttingDown : Bool
  handles : ServerHandles
deriving DecidableEq

/-- The `closeJobs` function: sets `shuttingDown = true` and performs the
shutdown sequence. Note, as in the source, it does not itself test
`shuttingDown` before running. Returns the updated state and the event trace. -/
def closeJobs (st : LifecycleState) (fail : CloseEv → Bool) :
    LifecycleState × List CloseEv :=
  ({ st with shuttingDown := true }, closeJobsTrace st.handles fail)

/-- Two consecutive invocations of `closeJobs`, the second on the state the
first produced; the traces concatenate. -/
def closeJobsTwice (st : LifecycleState) (fail : CloseEv → Bool) :
    LifecycleState × List CloseEv :=
  let p1 := closeJobs st fail
  let p2 := closeJobs p1.1 fail
  (p2.1, p1.2 ++ p2.2)

/-- The `process.on('uncaughtException')` handler: if `shuttingDown` is already
set it returns at once; otherwise it logs, awaits `closeJobs()`, and calls
`process.exit(1)`. Result: updated state, shutdown trace, and exit code if the
handler exits the process. -/
def onUncaughtException (st : LifecycleState) (fail : CloseEv → Bool) :
    LifecycleState × (List CloseEv × Option Nat) :=
  if st.shuttingDown then (st, ([], none))
  else
    let p := closeJobs st fail
    (p.1, (p.2, some 1))

/-- The ignorable Kafka protocol error codes, as the elements of the JS `Set`
`kafkaJSIgnorableCodes`: 22 ILLEGAL_GENERATION, 25 UNKNOWN_MEMBER_ID,
27 REBALANCE_IN_PROGRESS. -/
def kafkaJSIgnorableCodes : List Nat := [22, 25, 27]

/-- Numeric property keys of the `kafkaJSIgnorableCodes` `Set` object. A JS
`Set` stores its elements in an internal slot, not as object properties, and
`Set.prototype` contributes only method and accessor names, so no numeric key
is ever present: the list is empty. -/
def kafkaSetNumericPropertyKeys : List Nat := []

/-- The source expression `error.code in kafkaJSIgnorableCodes`: the JS `in`
operator tests presence of a property key on the object (here the `Set`
instance), not set membership, so it consults the object's property keys. -/
def codeInKafkaSetJs (code : Nat) : Bool :=
  kafkaSetNumericPropertyKeys.contains code

/-- The error value an unhandled promise rejection carries: either a
`KafkaJSProtocolError` with its broker protocol code, or any other error. -/
inductive JsFault
  | kafkaProtocolError (code : Nat)
  | plainError
deriving DecidableEq

/-- Observable actions of the process-level fault handlers. -/
inductive FaultEv
  | statusErrorLog
  | counterInc
  | sentryCapture
  | runCloseJobs
  | processExit (code : Nat)
deriving DecidableEq

/-- The `process.on('unhandledRejection')` handler: log the rejection; if the
error is a `KafkaJSProtocolError`, bump the `kafka_protocol_errors_total`
counter and, when `error.code in kafkaJSIgnorableCodes` holds, return early;
otherwise (and for every non-protocol error) call `Sentry.captureException`. -/
def onUnhandledRejection (e : JsFault) : List FaultEv :=
  FaultEv.statusErrorLog ::
    match e with
    | .kafkaProtocolError code =>
        FaultEv.counterInc ::
          (if codeInKafkaSetJs code then [] else [FaultEv.sentryCapture])
    | .plainError => [FaultEv.sentryCapture]

/-- How a joined consumer's promise settles. -/
inductive PromiseOutcome
  | resolvedOutcome
  | rejectedOutcome
deriving DecidableEq

/-- JS `p.catch(handler)`: the handler runs exactly when `p` rejects. -/
def promiseCatchRunsHandler : PromiseOutcome → Bool
  | .resolvedOutcome => false
  | .rejectedOutcome => true

/-- The wiring `joinSessionRecordingEventsConsumer().catch(closeJobs)` (and the
identical wiring for the blob consumer): given how the join promise settles,
returns the shutdown trace performed (empty when `closeJobs` is not invoked)
and the exit code this path requests of the process (it never calls
`process.exit`). -/
def joinConsumerWiring (outcome : PromiseOutcome) (st : LifecycleState)
    (fail : CloseEv → Bool) : List CloseEv × Option Nat :=
  if promiseCatchRunsHandler outcome then ((closeJobs st fail).2, none)
  else ([], none)

/-- Completion time of `Promise.race` of two promises, where `none` is a
promise that never settles: the earlier settle time. -/
def raceCompletion : Option Nat → Option Nat → Option Nat
  | some a, some b => some (min a b)
  | some a, none => some a
  | none, some b => some b
  | none, none => none

/-- Completion time of `Promise.all` of two promises: both must settle, so it
is the later settle time, and `none` (never settles) is absorbing. -/
def allCompletion : Option Nat → Option Nat → Option Nat
  | some a, some b => some (max a b)
  | some _, none => none
  | none, some _ => none
  | none, none => none

/-- Completion time of `stopPiscina`: first
`await Promise.race([broadcastTask(teardownPlugins), delay(5000)])`, then
`await Promise.all([broadcastTask(flushKafkaMessages), delay(2000)])`; the two
phases run in sequence so their durations add. `teardown` and `flush` are the
settle times of the two broadcasts (`none` when a broadcast never settles). -/
def stopPiscinaCompletion (teardown flush : Option Nat) : Option Nat :=
  match raceCompletion teardown (some 5000) with
  | none => none
  | some t1 =>
    match allCompletion flush (some 2000) with
    | none => none
    | some t2 => some (t1 + t2)

/-- The OS termination signals the orchestrator registers a handler for. -/
def terminationSignals : List String := ["SIGINT", "SIGTERM", "SIGHUP"]

/-- The `process.on('beforeExit')` handler: awaits `closeJobs()` to completion,
then calls `process.exit(0)`. -/
def beforeExitRun (st : LifecycleState) (fail : CloseEv → Bool) :
    (LifecycleState × List CloseEv) × Nat :=
  (closeJobs st fail, 0)

/-- Signal delivery: each signal in `terminationSignals` has the handler
`() => process.emit('beforeExit', 0)` registered, so it runs the `beforeExit`
handler; any other signal has no handler registered here. -/
def onTerminationSignal (sig : String) (st : LifecycleState)
    (fail : CloseEv → Bool) : Option ((LifecycleState × List CloseEv) × Nat) :=
  if terminationSignals.contains sig then some (beforeExitRun st fail) else none

/-- The capability flags `startPluginsServer` branches on, in the source's
field vocabulary. -/
structure PluginServerCapabilities where
  processPluginJobs : Bool
  pluginScheduledTasks : Bool
  ingestion : Bool
  ingestionOverflow : Bool
  processAsyncHandlers : Bool
  processAsyncOnEventHandlers : Bool
  processAsyncWebhooksHandlers : Bool
  sessionRecordingIngestion : Bool
  sessionRecordingBlobIngestion : Bool
  http : Bool
deriving DecidableEq

instance : Fintype PluginServerCapabilities :=
  Fintype.ofSurjective
    (fun t : Bool × Bool × Bool × Bool × Bool × Bool × Bool × Bool × Bool × Bool =>
      (⟨t.1, t.2.1, t.2.2.1, t.2.2.2.1, t.2.2.2.2.1, t.2.2.2.2.2.1, t.2.2.2.2.2.2.1,
        t.2.2.2.2.2.2.2.1, t.2.2.2.2.2.2.2.2.1, t.2.2.2.2.2.2.2.2.2⟩ :
        PluginServerCapabilities))
    (fun c =>
      ⟨⟨c.processPluginJobs, c.pluginScheduledTasks, c.ingestion, c.ingestionOverflow,
        c.processAsyncHandlers, c.processAsyncOnEventHandlers, c.processAsyncWebhooksHandlers,
        c.sessionRecordingIngestion, c.sessionRecordingBlobIngestion, c.http⟩, rfl⟩)

/-- The consumers the capability blocks can start, one per `start...Consumer`
call site (the blob entry stands for `ingester.start()`). -/
inductive ConsumerName
  | schedulerTasks
  | jobs
  | analytics
  | overflow
  | asyncHandler
  | onEventHandler
  | webhooks
  | sessionRecordingEvents
  | sessionRecordingBlob
deriving DecidableEq

/-- State threaded through the `try` block of `startPluginsServer`. The two
counters instrument how many times `createHub` and `makePiscina` have actually
been invoked; the `Registered` flags record whether the blob consumer's stop
and join closures were assigned; `thrown` records that an exception escaped a
block (aborting the remaining blocks and reaching the `catch`). -/
structure StartupState where
  hubCreated : Bool
  createHubCount : Nat
  piscinaCreated : Bool
  makePiscinaCount : Nat
  consumersStarted : List ConsumerName
  healthChecks : List String
  stopSRBRegistered : Bool
  joinSRBRegistered : Bool
  httpServerStarted : Bool
  thrown : Bool
deriving DecidableEq

/-- State at entry to the `try` block: nothing created, nothing started. -/
def initialStartupState : StartupState :=
  ⟨false, 0, false, 0, [], [], false, false, false, false⟩

/-- The tuple-swap `[hub, closeHub] = hub ? [hub, closeHub] : await createHub(...)`:
`createHub` runs only when no hub exists yet. -/
def ensureHub (s : StartupState) : StartupState :=
  if s.hubCreated then s
  else { s with hubCreated := true, createHubCount := s.createHubCount + 1 }

/-- The guard `piscina = piscina ?? (await makePiscina(...))`: `makePiscina`
runs only when no pool exists yet. -/
def ensurePiscina (s : StartupState) : StartupState :=
  if s.piscinaCreated then s
  else { s with piscinaCreated := true, makePiscinaCount := s.makePiscinaCount + 1 }

/-- A `start...Consumer` call completing: the consumer is now started. -/
def startConsumer (c : ConsumerName) (s : StartupState) : StartupState :=
  { s with consumersStarted := s.consumersStarted ++ [c] }

/-- An assignment `healthChecks[name] = ...`. -/
def registerHealth (n : String) (s : StartupState) : StartupState :=
  { s with healthChecks := s.healthChecks ++ [n] }

/-- A `throw` escaping the current block. -/
def throwStartup (s : StartupState) : StartupState := { s with thrown := true }

/-- Sequencing inside the `try` block: once an exception was thrown, the
remaining blocks do not run. -/
def stepIfOk (f : StartupState → StartupState) (s : StartupState) : StartupState :=
  if s.thrown then s else f s

/-- Block `if (capabilities.processPluginJobs || capabilities.pluginScheduledTasks)`:
ensure hub and piscina, start the graphile worker, then conditionally the
scheduled-tasks consumer and the jobs consumer. -/
def jobsAndTasksBlock (caps : PluginServerCapabilities) (s : StartupState) : StartupState :=
  if caps.processPluginJobs || caps.pluginScheduledTasks then
    let s1 := ensurePiscina (ensureHub s)
    let s2 := if caps.pluginScheduledTasks then startConsumer ConsumerName.schedulerTasks s1 else s1
    if caps.processPluginJobs then startConsumer ConsumerName.jobs s2 else s2
  else s

/-- Block `if (capabilities.ingestion)`: ensure hub and piscina, start the
analytics events ingestion consumer, register its health check. -/
def ingestionBlock (caps : PluginServerCapabilities) (s : StartupState) : StartupState :=
  if caps.ingestion then
    registerHealth "analytics-ingestion"
      (startConsumer ConsumerName.analytics (ensurePiscina (ensureHub s)))
  else s

/-- Block `if (capabilities.ingestionOverflow)`: ensure hub and piscina, start
the overflow consumer (no health check is registered for it). -/
def overflowBlock (caps : PluginServerCapabilities) (s : StartupState) : StartupState :=
  if caps.ingestionOverflow then
    startConsumer ConsumerName.overflow (ensurePiscina (ensureHub s))
  else s

/-- Block `if (capabilities.processAsyncHandlers)`: ensure hub and piscina,
start the combined async handler consumer, register its health check. -/
def asyncHandlersBlock (caps : PluginServerCapabilities) (s : StartupState) : StartupState :=
  if caps.processAsyncHandlers then
    registerHealth "on-event-ingestion"
      (startConsumer ConsumerName.asyncHandler (ensurePiscina (ensureHub s)))
  else s

/-- Block `if (capabilities.processAsyncOnEventHandlers)`: first
`if (capabilities.processAsyncHandlers) throw ...`; otherwise ensure hub and
piscina, start the on-event handler consumer, register its health check. -/
def asyncOnEventBlock (caps : PluginServerCapabilities) (s : StartupState) : StartupState :=
  if caps.processAsyncOnEventHandlers then
    if caps.processAsyncHandlers then throwStartup s
    else
      registerHealth "on-event-ingestion"
        (startConsumer ConsumerName.onEventHandler (ensurePiscina (ensureHub s)))
  else s

/-- Block `if (capabilities.processAsyncWebhooksHandlers)`: first
`if (capabilities.processAsyncHandlers) throw ...`; otherwise ensure hub and
piscina, start the webhooks handler consumer, register its health check. -/
def webhooksBlock (caps : PluginServerCapabilities) (s : StartupState) : StartupState :=
  if caps.processAsyncWebhooksHandlers then
    if caps.processAsyncHandlers then throwStartup s
    else
      registerHealth "webhooks-ingestion"
        (startConsumer ConsumerName.webhooks (ensurePiscina (ensureHub s)))
  else s

/-- Block `if (capabilities.sessionRecordingIngestion)`: starts the
session-recording events consumer and registers its health check. It does not
create the hub or the pool — it falls back on `createPostgresPool` and a fresh
`TeamManager` when no hub exists. -/
def sessionRecordingBlock (caps : PluginServerCapabilities) (s : StartupState) : StartupState :=
  if caps.sessionRecordingIngestion then
    registerHealth "session-recordings"
      (startConsumer ConsumerName.sessionRecordingEvents s)
  else s

/-- Block `if (capabilities.sessionRecordingBlobIngestion)`: resolves an object
storage client (`s3Available` says whether the resolved value is non-null;
when it is null the block throws). It then runs `ingester.start()` and, only
when `ingester.batchConsumer` is set afterwards (`batchConsumerSet`), assigns
`stopSessionRecordingBlobConsumer`, `joinSessionRecordingBlobConsumer` and the
`session-recordings-blob` health check. -/
def blobBlock (caps : PluginServerCapabilities) (s3Available batchConsumerSet : Bool)
    (s : StartupState) : StartupState :=
  if caps.sessionRecordingBlobIngestion then
    if s3Available then
      let s1 := startConsumer ConsumerName.sessionRecordingBlob s
      if batchConsumerSet then
        { registerHealth "session-recordings-blob" s1 with
            stopSRBRegistered := true, joinSRBRegistered := true }
      else s1
    else throwStartup s
  else s

/-- Block `if (capabilities.http)`: create the healthcheck HTTP server. -/
def httpBlock (caps : PluginServerCapabilities) (s : StartupState) : StartupState :=
  if caps.http then { s with httpServerStarted := true } else s

/-- The `try` block of `startPluginsServer`, blocks in source order, each
skipped once an exception has been thrown. (The pubsub/schedule wiring between
the webhooks and session-recording blocks touches none of the observables
modelled here.) -/
def runStartup (caps : PluginServerCapabilities) (s3Available batchConsumerSet : Bool) :
    StartupState :=
  stepIfOk (httpBlock caps)
    (stepIfOk (blobBlock caps s3Available batchConsumerSet)
      (stepIfOk (sessionRecordingBlock caps)
        (stepIfOk (webhooksBlock caps)
          (stepIfOk (asyncOnEventBlock caps)
            (stepIfOk (asyncHandlersBlock caps)
              (stepIfOk (overflowBlock caps)
                (stepIfOk (ingestionBlock caps)
                  (stepIfOk (jobsAndTasksBlock caps) initialStartupState))))))))

/-- The `catch` of `startPluginsServer`: on a startup exception it captures to
Sentry, awaits `closeJobs()`, and calls `process.exit(1)`; otherwise the
function returns normally with no exit. -/
def startupExit (s : StartupState) : Option Nat :=
  if s.thrown then some 1 else none

/-- The capability set enabling exactly `processAsyncHandlers` and
`processAsyncOnEventHandlers`. -/
def capsBothAsync : PluginServerCapabilities :=
  ⟨false, false, false, false, true, true, false, false, false, false⟩

theorem mem_optEv {x e : CloseEv} {b : Bool} : x ∈ optEv b e ↔ b = true ∧ x = e := by
  cases b <;> simp [optEv]

theorem blobStop_not_mem_trace (hnd : ServerHandles) (fail : CloseEv → Bool)
    (hb : hnd.sessionRecordingBlobConsumer = false) :
    CloseEv.sessionRecordingBlobStop ∉ closeJobsTrace hnd fail := by
  intro hmem
  simp [closeJobsTrace, preEvents, stopEvents, postEvents, promiseAllSettled, afterAwait,
    mem_optEv, hb] at hmem

/-- C1: for every started configuration (all handles populated), `closeJobs`
performs, in this order: close the HTTP health server, cancel all scheduled
timers, stop event-loop metrics sampling, request-stop of every started
subsystem with all outcomes awaited via `Promise.allSettled` (so no stop's
rejection suppresses the others or the continuation — the trace is the same
for every rejection pattern `fail`), then the worker-pool teardown and flush
broadcasts, and finally the Hub close. The only event preceding the HTTP
close is clearing the `lastActivityCheck` interval, which the claim does not
order. -/
theorem closeJobs_shutdown_sequence (h : ServerHandles) (fail : CloseEv → Bool)
    (hs : h = fullHandles) :
    closeJobsTrace h fail =
      [CloseEv.clearLastActivityCheck, CloseEv.httpServerClose, CloseEv.cancelAllScheduledJobs,
       CloseEv.stopEventLoopMetrics, CloseEv.pubSubStop, CloseEv.graphileWorkerStop,
       CloseEv.analyticsConsumerStop, CloseEv.overflowConsumerStop, CloseEv.onEventConsumerStop,
       CloseEv.webhooksConsumerStop, CloseEv.bufferConsumerDisconnect, CloseEv.jobsConsumerDisconnect,
       CloseEv.sessionRecordingEventsStop, CloseEv.sessionRecordingBlobStop,
       CloseEv.schedulerTasksDisconnect, CloseEv.piscinaTeardownBroadcast,
       CloseEv.piscinaFlushBroadcast, CloseEv.hubClose] := by
  subst hs; rfl

theorem closeJobs_shutdown_sequence_witness :
    closeJobsTrace fullHandles (fun e => decide (e = CloseEv.graphileWorkerStop)) =
      [CloseEv.clearLastActivityCheck, CloseEv.httpServerClose, CloseEv.cancelAllScheduledJobs,
       CloseEv.stopEventLoopMetrics, CloseEv.pubSubStop, CloseEv.graphileWorkerStop,
       CloseEv.analyticsConsumerStop, CloseEv.overflowConsumerStop, CloseEv.onEventConsumerStop,
       CloseEv.webhooksConsumerStop, CloseEv.bufferConsumerDisconnect, CloseEv.jobsConsumerDisconnect,
       CloseEv.sessionRecordingEventsStop, CloseEv.sessionRecordingBlobStop,
       CloseEv.schedulerTasksDisconnect, CloseEv.piscinaTeardownBroadcast,
       CloseEv.piscinaFlushBroadcast, CloseEv.hubClose] :=
  closeJobs_shutdown_sequence fullHandles (fun e => decide (e = CloseEv.graphileWorkerStop)) rfl

/-- C2 counterexample: `closeJobs` carries no re-entry latch, so invoking it
twice on a fully-started configuration executes every owned close routine
twice — the Hub close, a consumer stop and the worker-pool teardown broadcast
each occur twice, not once as the claim states. -/
theorem closeJobs_twice_closes_twice_counterexample :
    List.count CloseEv.hubClose
        (closeJobsTwice ⟨false, fullHandles⟩ (fun _ => false)).2 = 2 ∧
    List.count CloseEv.sessionRecordingEventsStop
        (closeJobsTwice ⟨false, fullHandles⟩ (fun _ => false)).2 = 2 ∧
    List.count CloseEv.piscinaTeardownBroadcast
        (closeJobsTwice ⟨false, fullHandles⟩ (fun _ => false)).2 = 2 := by
  decide

/-- C2 amended: `closeJobs` itself is not guarded by the `shuttingDown` flag:
even on a state where the flag is already set it performs the full shutdown
sequence, and a second invocation repeats every close routine (each event
occurs twice across the two runs). The flag prevents re-entry only through the
`uncaughtException` handler, which does nothing once the flag is set. -/
theorem closeJobs_not_latched (st : LifecycleState) (fail : CloseEv → Bool)
    (hflag : st.shuttingDown = true) :
    (closeJobs st fail).2 = closeJobsTrace st.handles fail ∧
    List.count CloseEv.hubClose (closeJobsTwice st fail).2 =
      2 * List.count CloseEv.hubClose (closeJobs st fail).2 ∧
    (onUncaughtException st fail).2 = ([], none) := by
  refine ⟨rfl, ?_, ?_⟩
  · show List.count CloseEv.hubClose
        (closeJobsTrace st.handles fail ++ closeJobsTrace st.handles fail) =
      2 * List.count CloseEv.hubClose (closeJobsTrace st.handles fail)
    rw [List.count_append, Nat.two_mul]
  · simp [onUncaughtException, hflag]

theorem closeJobs_not_latched_witness :
    ((closeJobs ⟨true, fullHandles⟩ (fun _ => false)).2 =
        closeJobsTrace (LifecycleState.mk true fullHandles).handles (fun _ => false) ∧
      List.count CloseEv.hubClose (closeJobsTwice ⟨true, fullHandles⟩ (fun _ => false)).2 =
        2 * List.count CloseEv.hubClose (closeJobs ⟨true, fullHandles⟩ (fun _ => false)).2 ∧
      (onUncaughtException ⟨true, fullHandles⟩ (fun _ => false)).2 = ([], none)) :=
  closeJobs_not_latched ⟨true, fullHandles⟩ (fun _ => false) rfl

/-- C3: the `unhandledRejection` handler evaluates
`error.code in kafkaJSIgnorableCodes` with the JS `in` operator, which tests
property keys of the `Set` object rather than membership, so it is false even
for the three churn codes: the handler counts the protocol error but then
calls `Sentry.captureException` for codes 22, 25 and 27 too, although they are
elements of the set (`contains` = true) and the code's own comment says they
are to be ignored. -/
theorem unhandledRejection_ignorable_codes_reach_sentry :
    onUnhandledRejection (JsFault.kafkaProtocolError 22) =
      [FaultEv.statusErrorLog, FaultEv.counterInc, FaultEv.sentryCapture] ∧
    onUnhandledRejection (JsFault.kafkaProtocolError 25) =
      [FaultEv.statusErrorLog, FaultEv.counterInc, FaultEv.sentryCapture] ∧
    onUnhandledRejection (JsFault.kafkaProtocolError 27) =
      [FaultEv.statusErrorLog, FaultEv.counterInc, FaultEv.sentryCapture] ∧
    codeInKafkaSetJs 22 = false ∧
    kafkaJSIgnorableCodes.contains 22 = true ∧
    kafkaJSIgnorableCodes.contains 25 = true ∧
    kafkaJSIgnorableCodes.contains 27 = true := by
  decide

/-- C4 counterexample: an unhandled promise rejection carrying a plain error is
logged and reported to Sentry but does not run `closeJobs` and does not exit
the process, contradicting the claim that every unhandled rejection triggers
the full shutdown sequence and exit code 1. -/
theorem unhandledRejection_no_shutdown_counterexample :
    onUnhandledRejection JsFault.plainError =
      [FaultEv.statusErrorLog, FaultEv.sentryCapture] ∧
    FaultEv.runCloseJobs ∉ onUnhandledRejection JsFault.plainError ∧
    FaultEv.processExit 1 ∉ onUnhandledRejection JsFault.plainError := by
  decide

/-- C4 amended: the two fault handlers split the claimed behaviour between
them. Every unhandled rejection is captured and reported to Sentry (given the
C3 property-key behaviour, even for ignorable protocol codes) but triggers no
shutdown and no exit; an uncaught exception triggers the full shutdown
sequence followed by exit code 1 — without a Sentry report — unless shutdown
is already in progress, in which case the handler does nothing. -/
theorem fault_handlers_division_of_labor (st : LifecycleState) (fail : CloseEv → Bool)
    (hflag : st.shuttingDown = false) :
    (∀ e : JsFault,
      FaultEv.sentryCapture ∈ onUnhandledRejection e ∧
      FaultEv.runCloseJobs ∉ onUnhandledRejection e ∧
      FaultEv.processExit 1 ∉ onUnhandledRejection e) ∧
    (onUncaughtException st fail).2 = (closeJobsTrace st.handles fail, some 1) ∧
    (∀ st2 : LifecycleState, st2.shuttingDown = true →
      (onUncaughtException st2 fail).2 = ([], none)) := by
  refine ⟨?_, ?_, ?_⟩
  · intro e
    cases e with
    | kafkaProtocolError code =>
        simp [onUnhandledRejection, codeInKafkaSetJs, kafkaSetNumericPropertyKeys]
    | plainError => simp [onUnhandledRejection]
  · simp [onUncaughtException, hflag, closeJobs]
  · intro st2 h2
    simp [onUncaughtException, h2]

theorem fault_handlers_division_of_labor_witness :
    ((∀ e : JsFault,
        FaultEv.sentryCapture ∈ onUnhandledRejection e ∧
        FaultEv.runCloseJobs ∉ onUnhandledRejection e ∧
        FaultEv.processExit 1 ∉ onUnhandledRejection e) ∧
      (onUncaughtException ⟨false, fullHandles⟩ (fun _ => false)).2 =
        (closeJobsTrace (LifecycleState.mk false fullHandles).handles (fun _ => false), some 1) ∧
      (∀ st2 : LifecycleState, st2.shuttingDown = true →
        (onUncaughtException st2 (fun _ => false)).2 = ([], none))) :=
  fault_handlers_division_of_labor ⟨false, fullHandles⟩ (fun _ => false) rfl

/-- C5: the join wiring is `join().catch(closeJobs)`, so when the
session-recording consumer's join promise resolves, `closeJobs` is not invoked
and nothing exits the process (no `process.exit(0)` exists on this path);
shutdown runs only when the join promise rejects, and even then with no exit
call — contradicting the claim (and the code's own comment) that resolution
triggers full shutdown and exit 0. -/
theorem join_resolution_triggers_nothing :
    joinConsumerWiring PromiseOutcome.resolvedOutcome ⟨false, fullHandles⟩ (fun _ => false) =
      ([], none) ∧
    joinConsumerWiring PromiseOutcome.rejectedOutcome ⟨false, fullHandles⟩ (fun _ => false) =
      ((closeJobs ⟨false, fullHandles⟩ (fun _ => false)).2, none) :=
  ⟨rfl, rfl⟩

/-- C6: for every capability subset (and whatever the blob block's object
storage and batch-consumer oracles say), `createHub` and `makePiscina` are
each invoked at most once over the whole startup sequence: the first block
needing each resource constructs it and every later block reuses it. -/
theorem hub_and_piscina_constructed_at_most_once
    (caps : PluginServerCapabilities) (s3Available batchConsumerSet : Bool) :
    (runStartup caps s3Available batchConsumerSet).createHubCount ≤ 1 ∧
    (runStartup caps s3Available batchConsumerSet).makePiscinaCount ≤ 1 := by
  obtain ⟨a, b, c, d, e, f, g, h, i, j⟩ := caps
  revert a b c d e f g h i j s3Available batchConsumerSet
  decide

/-- C7 counterexample: with exactly `processAsyncHandlers` and
`processAsyncOnEventHandlers` enabled, startup does throw and the process
exits 1, but only after the async-handler consumer has already been started
— so the failure does not occur before any consumer is started. -/
theorem both_async_caps_counterexample :
    (runStartup capsBothAsync true true).thrown = true ∧
    startupExit (runStartup capsBothAsync true true) = some 1 ∧
    (runStartup capsBothAsync true true).consumersStarted = [ConsumerName.asyncHandler] := by
  decide

/-- C7 amended: whenever both `processAsyncHandlers` and
`processAsyncOnEventHandlers` are enabled, startup throws (shutting down and
exiting 1) before the on-event consumer is started, but the async-handler
consumer has already been started by the earlier capability block when the
failure occurs. -/
theorem both_async_caps_fail_after_async_consumer
    (caps : PluginServerCapabilities) (s3Available batchConsumerSet : Bool)
    (h1 : caps.processAsyncHandlers = true) (h2 : caps.processAsyncOnEventHandlers = true) :
    (runStartup caps s3Available batchConsumerSet).thrown = true ∧
    startupExit (runStartup caps s3Available batchConsumerSet) = some 1 ∧
    ConsumerName.onEventHandler ∉ (runStartup caps s3Available batchConsumerSet).consumersStarted ∧
    ConsumerName.asyncHandler ∈ (runStartup caps s3Available batchConsumerSet).consumersStarted := by
  obtain ⟨a, b, c, d, e, f, g, h, i, j⟩ := caps
  replace h1 : e = true := h1
  replace h2 : f = true := h2
  subst h1
  subst h2
  revert a b c d g h i j s3Available batchConsumerSet
  decide

theorem both_async_caps_fail_after_async_consumer_witness :
    ((runStartup capsBothAsync true true).thrown = true ∧
      startupExit (runStartup capsBothAsync true true) = some 1 ∧
      ConsumerName.onEventHandler ∉ (runStartup capsBothAsync true true).consumersStarted ∧
      ConsumerName.asyncHandler ∈ (runStartup capsBothAsync true true).consumersStarted) :=
  both_async_caps_fail_after_async_consumer capsBothAsync true true rfl rfl

/-- C8 counterexample: the flush phase of `stopPiscina` awaits
`Promise.all([broadcastTask(flushKafkaMessages), delay(2000)])`, which is not
a timeout: with an unresponsive flush broadcast (`none`) `stopPiscina` never
completes, and with a slow flush broadcast it takes as long as the broadcast
does (here 1000000 ms, far beyond the claimed 5s + 2s bound). -/
theorem stopPiscina_flush_unbounded_counterexample :
    stopPiscinaCompletion (some 0) none = none ∧
    stopPiscinaCompletion (some 0) (some 1000000) = some 1000000 ∧
    ¬(1000000 ≤ 7000) := by
  decide

/-- C8 amended: the teardown broadcast is raced against a 5-second delay, so
that phase is bounded and best-effort; the flush broadcast, however, is
awaited jointly with a 2-second delay via `Promise.all`, so `stopPiscina`
waits at least 2 seconds, never completes if the flush broadcast never
settles, and otherwise completes within `min(teardown,5000) + max(flush,2000)`
— bounded in the teardown but not in the flush. -/
theorem stopPiscina_teardown_bounded_flush_unbounded (teardown : Option Nat) (f : Nat) :
    stopPiscinaCompletion teardown none = none ∧
    ∃ t, stopPiscinaCompletion teardown (some f) = some t ∧
      2000 ≤ t ∧ t ≤ 5000 + max f 2000 := by
  cases teardown with
  | none =>
    refine ⟨rfl, 5000 + max f 2000, rfl, ?_, le_refl _⟩
    omega
  | some a =>
    refine ⟨rfl, min a 5000 + max f 2000, rfl, ?_, ?_⟩ <;> omega

/-- C9: the three termination signals SIGINT, SIGTERM and SIGHUP each have the
same handler registered, which emits `beforeExit`; the `beforeExit` handler
awaits `closeJobs()` to completion and then exits with code 0 — so all three
signals map to the identical graceful-shutdown-then-exit-0 path (and a signal
outside the list has no handler here). -/
theorem termination_signals_single_exit0_path (st : LifecycleState) (fail : CloseEv → Bool) :
    onTerminationSignal "SIGINT" st fail = some (closeJobs st fail, 0) ∧
    onTerminationSignal "SIGTERM" st fail = some (closeJobs st fail, 0) ∧
    onTerminationSignal "SIGHUP" st fail = some (closeJobs st fail, 0) ∧
    onTerminationSignal "SIGUSR2" st fail = none :=
  ⟨rfl, rfl, rfl, rfl⟩

/-- C10: when the blob capability is enabled but `ingester.batchConsumer` is
unset after `start()` (oracle false), no blob stop closure, no join closure
and no `session-recordings-blob` health entry is registered — and for any
handle state whose blob stop closure is unset, `closeJobs` never performs the
blob ingester stop. -/
theorem blob_batchConsumer_unset_nothing_registered
    (caps : PluginServerCapabilities) (s3Available : Bool)
    (_hcap : caps.sessionRecordingBlobIngestion = true) :
    (runStartup caps s3Available false).stopSRBRegistered = false ∧
    (runStartup caps s3Available false).joinSRBRegistered = false ∧
    "session-recordings-blob" ∉ (runStartup caps s3Available false).healthChecks ∧
    (∀ (hnd : ServerHandles) (fail : CloseEv → Bool),
      hnd.sessionRecordingBlobConsumer = false →
      CloseEv.sessionRecordingBlobStop ∉ closeJobsTrace hnd fail) := by
  have main :
      (runStartup caps s3Available false).stopSRBRegistered = false ∧
      (runStartup caps s3Available false).joinSRBRegistered = false ∧
      "session-recordings-blob" ∉ (runStartup caps s3Available false).healthChecks := by
    obtain ⟨a, b, c, d, e, f, g, h, i, j⟩ := caps
    revert a b c d e f g h i j s3Available
    decide
  exact ⟨main.1, main.2.1, main.2.2, fun hnd fail hb => blobStop_not_mem_trace hnd fail hb⟩

theorem blob_batchConsumer_unset_nothing_registered_witness :
    ((runStartup ⟨false, false, false, false, false, false, false, false, true, false⟩
        true false).stopSRBRegistered = false ∧
      (runStartup ⟨false, false, false, false, false, false, false, false, true, false⟩
        true false).joinSRBRegistered = false ∧
      "session-recordings-blob" ∉
        (runStartup ⟨false, false, false, false, false, false, false, false, true, false⟩
          true false).healthChecks ∧
      CloseEv.sessionRecordingBlobStop ∉
        closeJobsTrace
          ⟨true, true, true, true, true, true, true, true, true, true, true, true, false, true,
            true, true⟩
          (fun _ => false)) := by
  have main :=
    blob_batchConsumer_unset_nothing_registered
      ⟨false, false, false, false, false, false, false, false, true, false⟩ true rfl
  exact ⟨main.1, main.2.1, main.2.2.1,
    main.2.2.2
      ⟨true, true, true, true, true, true, true, true, true, true, true, true, false, true,
        true, true⟩
      (fun _ => false) rfl⟩
